import Mathlib

/-!
Verification of the answer-scoring pipeline of `src/app.py` (a Flask exam
application for NFT / intellectual-property case studies).

The Python source is shallowly embedded: pure scoring logic becomes Lean
functions; the external Claude HTTP call is modelled by an explicit
`AnalyzerOutcome` parameter describing which branch of the response handling
the code takes (timeout, generic exception, non-200 status, unparseable body,
or a parsed JSON result); the presence of the `CLAUDE_API_KEY` environment
variable is an explicit boolean parameter.  Python floats are modelled by
rationals (every literal involved — 1.5, 0.75, 1.8, 2.4 — is exact).
Wall-clock fields (`ai_processing_time_ms`, timestamps, durations) and the
raw-response / token-count metadata are not modelled; they carry no scoring
logic.
-/

namespace NFTExam

/-! ## Data model (`class Question`, `class Case`, lines 70-98) -/

/-- Embeds `class Question` (app.py line 70): text, expected boolean answer,
topical keywords.  The `random_rephrase` display helper is cosmetic and not
modelled. -/
structure Question where
  text : String
  correct : Bool
  keywords : List String
deriving Repr, DecidableEq

/-- Embeds `class Case` (app.py line 91). -/
structure Case where
  case_id : Nat
  title : String
  description : String
  questions : List Question
deriving Repr, DecidableEq

/-- Embeds the `CASES` catalog (app.py lines 104-253), in dict insertion
order 1..5.  The long Spanish strings are carried verbatim (the ASCII
apostrophes around «uso público» are written with the escape \x27). -/
def CASES : List Case := [
  { case_id := 1,
    title := "NFT como Título Traslativo de Dominio",
    description := "María compra un NFT de una obra de arte digital por 2 ETH en OpenSea. El proyecto especifica en sus términos y condiciones que la compra del NFT NO transfiere derechos de autor, solo otorga una licencia personal no comercial para uso privado. Sin embargo, María interpreta que al comprar el NFT obtiene la propiedad de la obra digital y puede usarla comercialmente. Analice la situación desde la perspectiva de la separación obra-soporte y la cesión de derechos de autor.",
    questions := [
      { text := "La compra de un NFT automáticamente transfiere los derechos patrimoniales de autor de la obra digital asociada al comprador.",
        correct := false,
        keywords := ["derechos patrimoniales", "transferencia automática", "NFT", "cesión expresa"] },
      { text := "Los términos y condiciones del proyecto NFT pueden limitar los derechos que adquiere el comprador, incluso si el NFT representa una obra protegida por derecho de autor.",
        correct := true,
        keywords := ["términos y condiciones", "limitación de derechos", "contrato", "licencia"] } ] },
  { case_id := 2,
    title := "Smart Contracts y Regalías Automáticas",
    description := "Un artista crea una colección de NFTs con un smart contract que incluye regalías automáticas del 10% para cada reventa. Después de 2 años, los compradores han revendido los NFTs múltiples veces y el artista ha recibido regalías automáticas por cada transacción. Surge la pregunta: ¿estas regalías automáticas programadas en blockchain tienen validez jurídica en Guatemala? ¿Qué sucede si un comprador vende el NFT fuera de la plataforma original sin pagar regalías?",
    questions := [
      { text := "Las regalías automáticas programadas en smart contracts tienen plena validez jurídica en Guatemala y son exigibles ante tribunales nacionales.",
        correct := false,
        keywords := ["smart contracts", "validez jurídica", "regalías", "enforcement", "Guatemala"] },
      { text := "Un smart contract puede establecer obligaciones contractuales válidas, pero su enforcement depende del reconocimiento legal del contrato subyacente.",
        correct := true,
        keywords := ["obligaciones contractuales", "enforcement", "reconocimiento legal", "contrato subyacente"] } ] },
  { case_id := 3,
    title := "Representación Digital vs Reproducción",
    description := "Carlos posee los derechos de autor de una fotografía. Un tercero crea un NFT de su fotografía sin autorización y la vende en una plataforma descentralizada. El NFT contiene un hash que apunta a la imagen almacenada en IPFS. Carlos argumenta que esto constituye reproducción no autorizada y violación a sus derechos de autor. La defensa del infractor alega que el NFT solo contiene metadatos y un enlace, no la obra en sí.",
    questions := [
      { text := "Crear un NFT que apunta a una obra protegida por derecho de autor, sin autorización del titular, constituye siempre una violación al derecho de reproducción.",
        correct := false,
        keywords := ["NFT", "reproducción", "autorización", "metadatos", "enlace"] },
      { text := "La mera tokenización de una obra (crear NFT con metadatos) sin almacenar la obra en blockchain podría no constituir reproducción directa, pero sí otros tipos de infracción como aprovechamiento indebido.",
        correct := true,
        keywords := ["tokenización", "metadatos", "reproducción directa", "aprovechamiento indebido"] } ] },
  { case_id := 4,
    title := "Uso Público de NFT Musical",
    description := "Una discográfica vende NFTs de canciones populares otorgando a los compradores derechos de \x27uso público\x27 para las canciones. Los compradores interpretan esto como autorización para usar las canciones en streams de Twitch, videos de YouTube, eventos privados y comerciales públicos. Surge controversia cuando artistas reclaman que estos usos exceden lo autorizado y constituyen comunicación pública no autorizada.",
    questions := [
      { text := "La comunicación pública de una obra musical requiere autorización específica del titular, independientemente de si se posee un NFT de la misma.",
        correct := true,
        keywords := ["comunicación pública", "autorización específica", "obra musical", "NFT"] },
      { text := "Los términos \x27uso público\x27 en un contrato de NFT tienen un significado jurídico preciso que automáticamente autoriza cualquier tipo de comunicación pública.",
        correct := false,
        keywords := ["uso público", "significado jurídico", "comunicación pública", "autorización automática"] } ] },
  { case_id := 5,
    title := "NFT y Derechos Constitucionales",
    description := "Un museo nacional digitaliza obras de arte de dominio público y crea NFTs de las mismas, vendiendo acceso exclusivo a versiones de alta resolución. Ciudadanos argumentan que esto limita el acceso público a patrimonio cultural que debería ser libremente disponible, violando el derecho constitucional de acceso a la cultura (Art. 71 CN). El museo alega que las obras físicas siguen siendo accesibles y los NFTs solo monetizan versiones digitales mejoradas.",
    questions := [
      { text := "Los derechos de acceso a la cultura prevalecen sobre cualquier intento de monetización de obras en dominio público, incluso en versiones digitales mejoradas.",
        correct := false,
        keywords := ["acceso a la cultura", "art. 71 CN", "derechos patrimoniales", "herederos", "art. 42 CN"] },
      { text := "Existe un equilibrio constitucional entre el acceso a la cultura y la protección del autor, debiendo respetarse los derechos patrimoniales durante el término de protección legal.",
        correct := true,
        keywords := ["equilibrio constitucional", "protección del autor", "término de protección", "principio de legalidad"] } ] } ]

/-! ## Penalty detector (`detect_paste_copy_attempts`, lines 435-457) -/

/-- Substring containment on character lists (Python `pat in s`). -/
def listContainsSubstr (s pat : List Char) : Bool :=
  match s with
  | [] => pat.isEmpty
  | _ :: rest => pat.isPrefixOf s || listContainsSubstr rest pat

/-- Python `pat in s` on strings. -/
def containsSubstr (s pat : String) : Bool :=
  listContainsSubstr s.toList pat.toList

/-- Python `c in s` for a single character. -/
def containsChar (s : String) (c : Char) : Bool :=
  s.toList.contains c

/-- Python `s.lower()`, character-wise.  `Char.toLower` lowers the ASCII
range only; the fixed patterns compared against lowered text are pure ASCII,
so containment results agree with Python. -/
def strToLower (s : String) : String :=
  String.mk (s.toList.map Char.toLower)

/-- Python `s.strip()`: drop leading and trailing whitespace. -/
def strTrim (s : String) : String :=
  String.mk (((s.toList.dropWhile Char.isWhitespace).reverse.dropWhile
    Char.isWhitespace).reverse)

/-- Python slicing `s[:n]`, character-wise. -/
def strTake (s : String) (n : Nat) : String :=
  String.mk (s.toList.take n)

/-- The smart-quote / dash characters checked at app.py line 445
(U+2018, U+2019, U+201C, U+201D, U+2013, U+2014). -/
def smart_format_chars : List Char :=
  [Char.ofNat 0x2018, Char.ofNat 0x2019, Char.ofNat 0x201c,
   Char.ofNat 0x201d, Char.ofNat 0x2013, Char.ofNat 0x2014]

/-- The `formal_patterns` list at app.py line 453. -/
def formal_patterns : List String :=
  ["en virtud de", "por consiguiente", "no obstante", "por tanto", "en consecuencia"]

/-- Embeds `detect_paste_copy_attempts` (app.py lines 435-457).
Returns `(paste_indicators, copy_indicators)`. -/
def detect_paste_copy_attempts (user_reason : String) : Nat × Nat :=
  let paste1 : Nat := if user_reason.length > 300 then 1 else 0
  let paste2 : Nat := if smart_format_chars.any (fun c => containsChar user_reason c) then 1 else 0
  let paste3 : Nat :=
    if containsSubstr user_reason "  " || containsSubstr user_reason "\t" then 1 else 0
  let formal_hits : Nat :=
    (formal_patterns.filter (fun p => containsSubstr (strToLower user_reason) p)).length
  let copy1 : Nat := if formal_hits ≥ 2 then 1 else 0
  (paste1 + paste2 + paste3, copy1)

/-! ## AI evaluator (`evaluate_answer_with_ai_real`, lines 538-730)

The HTTP call to the Claude API (lines 629-644) and the JSON extraction from
its response (lines 656-666) are external effects; their observable result is
modelled by `AnalyzerOutcome`, whose constructors correspond one-to-one to the
branches of the Python error handling. -/

/-- A JSON value found under a criterion key in the parsed response.
Python checks `isinstance(score, (int, float))`; JSON booleans are Python
ints (`int(True) = 1`), so they are covered by `num`. -/
inductive JsonVal where
  /-- a numeric value (Python int or float) -/
  | num (q : ℚ)
  /-- any non-numeric value (string, list, null, object) -/
  | other
deriving Repr, DecidableEq

/-- The parsed JSON object extracted from a successful Claude response:
the `criterios` sub-object as an association list (Python dict `.get`),
and the optional top-level string fields read at lines 686-693. -/
structure AiResult where
  criterios : List (String × JsonVal)
  feedback_general : Option String
  feedback_fortalezas : Option String
  feedback_mejoras : Option String
  nivel_detectado : Option String
deriving Repr, DecidableEq

/-- Which branch of the response handling in `evaluate_answer_with_ai_real`
the external call takes.  Constructors mirror the Python control flow:
`requests.exceptions.Timeout` (line 720), the generic `except Exception`
(line 725), `response.status_code != 200` (line 715), HTTP 200 whose body
yields no parseable JSON (`json.JSONDecodeError`/`ValueError`, line 703),
and HTTP 200 with an extracted JSON object (line 669). -/
inductive AnalyzerOutcome where
  /-- the request timed out -/
  | timeout
  /-- any other exception, carrying `str(e)` -/
  | exception (msg : String)
  /-- non-200 status with the response text -/
  | httpError (status : Nat) (text : String)
  /-- HTTP 200 but no JSON extractable; carries the error message `str(e)` -/
  | parseFailure (errMsg : String)
  /-- HTTP 200 and a JSON object was extracted -/
  | parsed (r : AiResult)
deriving Repr, DecidableEq

/-- The nine criterion keys iterated at app.py lines 672-674, in order. -/
def criterionNames : List String :=
  ["opinion_fundada", "valores_eticos", "lenguaje_terminologia",
   "citas_precision", "estructura_coherencia", "profundidad_fundamentacion",
   "capacidad_critica", "presentacion_estilo", "innovacion_creatividad"]

/-- Python dict lookup `criterios.get(criterio)` on the association list. -/
def lookupCriterio (l : List (String × JsonVal)) (name : String) : Option JsonVal :=
  (l.find? (fun p => p.1 == name)).map Prod.snd

/-- Python `int()` on a rational: truncation toward zero. -/
def ratTrunc (q : ℚ) : ℤ := if 0 ≤ q then ⌊q⌋ else ⌈q⌉

/-- Embeds the per-criterion validation at app.py line 675-676:
`score = criterios.get(criterio, 3)`; then
`max(1, min(5, int(score)))` when the value is numeric, else `3`.
An absent key yields the numeric default 3, and `max(1, min(5, 3)) = 3`. -/
def validateCriterion (v : Option JsonVal) : ℤ :=
  match v with
  | some (.num q) => max 1 (min 5 (ratTrunc q))
  | some .other => 3
  | none => 3

/-- The `validated_criterios` dict of app.py lines 670-676, as the list of
its values in key order. -/
def validated_criterios (criterios : List (String × JsonVal)) : List ℤ :=
  criterionNames.map (fun n => validateCriterion (lookupCriterio criterios n))

/-- The `promedio` of app.py line 679:
`sum(validated_criterios.values()) / len(validated_criterios)`. -/
def promedio (criterios : List (String × JsonVal)) : ℚ :=
  (((validated_criterios criterios).sum : ℤ) : ℚ) /
    (((validated_criterios criterios).length : Nat) : ℚ)

/-- The `argument_score` of app.py line 680:
`(promedio / 5.0) * 1.5`. -/
def argument_score_of (criterios : List (String × JsonVal)) : ℚ :=
  (promedio criterios / 5) * (3/2)

/-- The per-answer evaluation record built by `evaluate_answer_with_ai_real`
(both the `default_result` dict, lines 551-571, and the success dict,
lines 684-698).  Fields `ai_tokens_used`, `ai_processing_time_ms` and
`ai_raw_response` (wall clock / raw externals) are not modelled.
`promedio_criterios` and `nivel_detectado` are absent from the default
dict, hence optional here. -/
structure EvaluationData where
  opinion_fundada : ℤ
  valores_eticos : ℤ
  lenguaje_terminologia : ℤ
  citas_precision : ℤ
  estructura_coherencia : ℤ
  profundidad_fundamentacion : ℤ
  capacidad_critica : ℤ
  presentacion_estilo : ℤ
  innovacion_creatividad : ℤ
  feedback_general : String
  feedback_fortalezas : String
  feedback_mejoras : String
  truth_score : ℚ
  argument_score : ℚ
  final_score : ℚ
  promedio_criterios : Option ℚ
  nivel_detectado : Option String
  ai_model_used : String
deriving Repr, DecidableEq

/-- The `default_result` dict of app.py lines 551-571, parameterised by the
truth score. -/
def default_result (truth_score : ℚ) : EvaluationData :=
  { opinion_fundada := 3, valores_eticos := 3, lenguaje_terminologia := 3,
    citas_precision := 3, estructura_coherencia := 3,
    profundidad_fundamentacion := 3, capacidad_critica := 3,
    presentacion_estilo := 3, innovacion_creatividad := 3,
    feedback_general := "Evaluación sin IA disponible. Puntuación por defecto asignada.",
    feedback_fortalezas := "No se pudo analizar con IA.",
    feedback_mejoras := "Configure Claude API key para evaluación detallada.",
    truth_score := truth_score,
    argument_score := 3/4,
    final_score := truth_score + 3/4,
    promedio_criterios := none,
    nivel_detectado := none,
    ai_model_used := "none" }

/-- Embeds `evaluate_answer_with_ai_real` (app.py lines 538-730).
`hasApiKey` models the truthiness of `CLAUDE_API_KEY`; `outcome` models the
result of the external call (only reached when the key is present).
The numeric literals: `1.5` is the truth value and the argument-scale factor
(line 547 and 680), `0.75` the fallback argument score (line 565).
Returns `(final_score, result_dict)` exactly as the Python
`return` statements at lines 575, 701 and 730. -/
def evaluate_answer_with_ai_real (user_bool : Bool) (user_reason : String)
    (correct_bool : Bool) (case_description question_text : String)
    (case_id question_index : Nat)
    (hasApiKey : Bool) (outcome : AnalyzerOutcome) : ℚ × EvaluationData :=
  let truth_score : ℚ := if user_bool == correct_bool then 3/2 else 0
  let dflt := default_result truth_score
  if !hasApiKey then
    (dflt.final_score, dflt)
  else
    match outcome with
    | .parsed r =>
        let vc := fun n => validateCriterion (lookupCriterio r.criterios n)
        let argument_score : ℚ := argument_score_of r.criterios
        let final_score : ℚ := truth_score + argument_score
        (final_score,
          { opinion_fundada := vc "opinion_fundada",
            valores_eticos := vc "valores_eticos",
            lenguaje_terminologia := vc "lenguaje_terminologia",
            citas_precision := vc "citas_precision",
            estructura_coherencia := vc "estructura_coherencia",
            profundidad_fundamentacion := vc "profundidad_fundamentacion",
            capacidad_critica := vc "capacidad_critica",
            presentacion_estilo := vc "presentacion_estilo",
            innovacion_creatividad := vc "innovacion_creatividad",
            feedback_general := strTake (r.feedback_general.getD "Sin feedback general") 2000,
            feedback_fortalezas := strTake (r.feedback_fortalezas.getD "Sin fortalezas identificadas") 1000,
            feedback_mejoras := strTake (r.feedback_mejoras.getD "Sin mejoras sugeridas") 1000,
            truth_score := truth_score,
            argument_score := argument_score,
            final_score := final_score,
            promedio_criterios := some (promedio r.criterios),
            nivel_detectado := some (r.nivel_detectado.getD "intermedio"),
            ai_model_used := "claude-3-sonnet-20240229" })
    | .parseFailure errMsg =>
        let d := { dflt with
          feedback_general := "Error procesando respuesta de IA: " ++ strTake errMsg 200 }
        (d.final_score, d)
    | .httpError status text =>
        let d := { dflt with
          feedback_general := "Error de API: " ++
            ("Claude API error " ++ toString status ++ ": " ++ strTake text 200) }
        (d.final_score, d)
    | .timeout =>
        let d := { dflt with
          feedback_general := "Timeout en evaluación con IA. Intente nuevamente." }
        (d.final_score, d)
    | .exception msg =>
        let d := { dflt with
          feedback_general := "Error inesperado: " ++ strTake msg 200 }
        (d.final_score, d)

/-- Whether `evaluate_answer_with_ai_real` reaches the `requests.post` call
(app.py line 631).  The only guard before it is `if not CLAUDE_API_KEY`
(line 573); no property of `user_reason` is consulted. -/
def attemptsAnalyzerCall (hasApiKey : Bool) (user_reason : String) : Bool :=
  hasApiKey

/-! ## Aggregation (`submit_comprehensive`, lines 795-1011)

Only the scoring part is embedded: reading the form, the per-case /
per-question evaluation loop (lines 826-905) and the fields of the report
that is persisted (lines 926-947).  Session handling, deadline checks,
duplicate detection, SQL statements, timestamps and the access token are
plumbing around it and are not modelled.  `request.form` is modelled as an
association list. -/

/-- Python `request.form.get(key)`: `none` when the key is absent. -/
def formGet? (form : List (String × String)) (key : String) : Option String :=
  (form.find? (fun p => p.1 == key)).map Prod.snd

/-- One entry of `case_answers` (app.py lines 874-884).  The nested
`ai_feedback` sub-dict repeats fields of the evaluation and is not
duplicated here. -/
structure AnswerRecord where
  user_bool : Bool
  user_reason : String
  correct : Bool
  score : ℚ
deriving Repr, DecidableEq

/-- One entry of `all_question_evaluations`: the evaluator result plus the
question identification added at app.py lines 864-870 (`user_answer_bool`
and `correct_answer_bool` are stored as 1/0 integers). -/
structure QuestionEvaluation where
  case_id : Nat
  question_index : Nat
  user_answer_text : String
  user_answer_bool : Nat
  correct_answer_bool : Nat
  eval : EvaluationData
deriving Repr, DecidableEq

/-- One entry of `all_answers` (app.py lines 890-894). -/
structure CaseData where
  case : Case
  answers : List AnswerRecord
  score : ℚ
deriving Repr, DecidableEq

/-- The scoring-relevant content of the persisted result row and rendered
report (app.py lines 926-947): grand total, per-case data, per-question
evaluations, the penalty counters, the derived level, and the fixed
maximum. -/
structure SubmissionReport where
  total_score : ℚ
  cases : List CaseData
  evaluations : List QuestionEvaluation
  paste_attempts : Nat
  copy_attempts : Nat
  total_penalties : ℚ
  overall_level : String
  max_possible_score : ℚ
deriving Repr, DecidableEq

/-- The body of the inner question loop (app.py lines 844-888): read the
form entries `case_{case_id}_q{i}` and `case_{case_id}_a{i}`, default an
empty justification to the fixed placeholder, evaluate, and record. -/
def scoreQuestion (hasApiKey : Bool) (outcome : Nat → Nat → AnalyzerOutcome)
    (form : List (String × String)) (c : Case) (i : Nat) (q : Question) :
    AnswerRecord × QuestionEvaluation :=
  let question_key := "case_" ++ toString c.case_id ++ "_q" ++ toString i
  let answer_key := "case_" ++ toString c.case_id ++ "_a" ++ toString i
  let user_bool := formGet? form question_key == some "true"
  let stripped := strTrim ((formGet? form answer_key).getD "")
  let user_reason := if stripped = "" then "Sin justificación proporcionada." else stripped
  let correct_bool := q.correct
  let (question_score, evaluation_data) :=
    evaluate_answer_with_ai_real user_bool user_reason correct_bool
      c.description q.text c.case_id i hasApiKey (outcome c.case_id i)
  ({ user_bool := user_bool, user_reason := user_reason,
     correct := correct_bool, score := question_score },
   { case_id := c.case_id, question_index := i,
     user_answer_text := user_reason,
     user_answer_bool := if user_bool then 1 else 0,
     correct_answer_bool := if correct_bool then 1 else 0,
     eval := evaluation_data })

/-- The per-case loop body (app.py lines 839-896): evaluate every question
of the case in index order and sum the scores. -/
def scoreCase (hasApiKey : Bool) (outcome : Nat → Nat → AnalyzerOutcome)
    (form : List (String × String)) (c : Case) :
    CaseData × List QuestionEvaluation :=
  let per := c.questions.enum.map (fun p => scoreQuestion hasApiKey outcome form c p.1 p.2)
  let case_answers := per.map (fun p => p.1)
  let case_score := (case_answers.map (fun a => a.score)).sum
  ({ case := c, answers := case_answers, score := case_score },
   per.map (fun p => p.2))

/-- Embeds the scoring part of `submit_comprehensive` (app.py lines
826-947): iterate the catalog in order, accumulate the grand total, keep
the penalty counters at their initial values (they are never modified — no
call to `detect_paste_copy_attempts` occurs on this path), derive
`overall_level` from the average over the fixed 10 questions (line 899-900,
thresholds 1.8 and 2.4), and build the persisted report. -/
def submit_comprehensive_scoring (form : List (String × String))
    (hasApiKey : Bool) (outcome : Nat → Nat → AnalyzerOutcome) :
    SubmissionReport :=
  let total_paste_attempts : Nat := 0
  let total_copy_attempts : Nat := 0
  let total_penalties : ℚ := 0
  let perCase := CASES.map (fun c => scoreCase hasApiKey outcome form c)
  let all_answers := perCase.map (fun p => p.1)
  let all_question_evaluations := (perCase.map (fun p => p.2)).flatten
  let total_score := (all_answers.map (fun a => a.score)).sum
  let avg_score_per_question := total_score / 10
  let overall_level :=
    if avg_score_per_question < 9/5 then "basico"
    else if 12/5 ≤ avg_score_per_question then "avanzado"
    else "intermedio"
  { total_score := total_score,
    cases := all_answers,
    evaluations := all_question_evaluations,
    paste_attempts := total_paste_attempts,
    copy_attempts := total_copy_attempts,
    total_penalties := total_penalties,
    overall_level := overall_level,
    max_possible_score := 30 }

/-! ## Spec-side definition for the refinement comparison of claim C8 -/

/-- Follows the words of the specification (§4.1, §8): the fixed set of
low-effort phrases whose exact match (after trimming and lowercasing) is
supposed to raise an `isDegenerateAnswer` flag.  Used only to compare the
spec against `detect_paste_copy_attempts`, which is the entire penalty
detector present in the source. -/
def specLowEffortPhrases : List String := ["si", "no", "no se"]

/-! ## Shared lemmas -/

/-- Every validated criterion value lies in the clamp range `[1, 5]`. -/
theorem validateCriterion_mem_range (v : Option JsonVal) :
    1 ≤ validateCriterion v ∧ validateCriterion v ≤ 5 := by
  rcases v with _ | jv
  · exact ⟨by simp [validateCriterion], by simp [validateCriterion]⟩
  · cases jv with
    | num q =>
        exact ⟨le_max_left _ _, max_le (by norm_num) (min_le_left _ _)⟩
    | other => exact ⟨by simp [validateCriterion], by simp [validateCriterion]⟩

/-- The nine validated criterion values sum to a value in `[9, 45]`. -/
theorem validated_sum_bounds (c : List (String × JsonVal)) :
    9 ≤ (validated_criterios c).sum ∧ (validated_criterios c).sum ≤ 45 := by
  have h := fun n => validateCriterion_mem_range (lookupCriterio c n)
  obtain ⟨a1, b1⟩ := h "opinion_fundada"
  obtain ⟨a2, b2⟩ := h "valores_eticos"
  obtain ⟨a3, b3⟩ := h "lenguaje_terminologia"
  obtain ⟨a4, b4⟩ := h "citas_precision"
  obtain ⟨a5, b5⟩ := h "estructura_coherencia"
  obtain ⟨a6, b6⟩ := h "profundidad_fundamentacion"
  obtain ⟨a7, b7⟩ := h "capacidad_critica"
  obtain ⟨a8, b8⟩ := h "presentacion_estilo"
  obtain ⟨a9, b9⟩ := h "innovacion_creatividad"
  simp only [validated_criterios, criterionNames, List.map_cons, List.map_nil,
    List.sum_cons, List.sum_nil]
  omega

/-- `promedio` is an average of nine values from `[1, 5]`, hence in `[1, 5]`. -/
theorem promedio_bounds (c : List (String × JsonVal)) :
    1 ≤ promedio c ∧ promedio c ≤ 5 := by
  obtain ⟨hlo, hhi⟩ := validated_sum_bounds c
  have hlen : ((validated_criterios c).length : ℚ) = 9 := by
    simp [validated_criterios, criterionNames]
  have hloq : (9 : ℚ) ≤ (((validated_criterios c).sum : ℤ) : ℚ) := by
    exact_mod_cast hlo
  have hhiq : (((validated_criterios c).sum : ℤ) : ℚ) ≤ 45 := by
    exact_mod_cast hhi
  rw [promedio, hlen]
  constructor
  · linarith [hloq]
  · linarith [hhiq]

/-- The success-path argument score lies in `[0.3, 1.5]`. -/
theorem argument_score_of_bounds (c : List (String × JsonVal)) :
    3/10 ≤ argument_score_of c ∧ argument_score_of c ≤ 3/2 := by
  obtain ⟨hlo, hhi⟩ := promedio_bounds c
  rw [argument_score_of]
  constructor <;> nlinarith [hlo, hhi]

/-- The truth component is either 0 or 1.5. -/
theorem truth_score_cases (ub cb : Bool) :
    (if ub == cb then (3/2 : ℚ) else 0) = 3/2 ∨
    (if ub == cb then (3/2 : ℚ) else 0) = 0 := by
  split <;> simp

/-! ## Claim theorems -/

/-- C1: for every answer evaluated — every combination of submitted boolean,
correct boolean, and analyzer outcome (success with arbitrary criterion
values, parse failure, HTTP error, timeout, generic exception, or absent API
key) — the final per-question score returned by
`evaluate_answer_with_ai_real` satisfies `0 ≤ final_score ≤ 3`, the
per-question maximum. -/
theorem C1_final_score_bounded (ub : Bool) (reason : String) (cb : Bool)
    (cd qt : String) (ci qi : Nat) (key : Bool) (o : AnalyzerOutcome) :
    0 ≤ (evaluate_answer_with_ai_real ub reason cb cd qt ci qi key o).1 ∧
      (evaluate_answer_with_ai_real ub reason cb cd qt ci qi key o).1 ≤ 3 := by
  have ht0 : (0 : ℚ) ≤ (if ub == cb then (3/2 : ℚ) else 0) := by split <;> norm_num
  have ht1 : (if ub == cb then (3/2 : ℚ) else 0) ≤ 3/2 := by split <;> norm_num
  cases key with
  | false =>
      simp only [evaluate_answer_with_ai_real, default_result, Bool.not_false, if_true]
      constructor <;> linarith
  | true =>
      rcases o with _ | m | ⟨st, tx⟩ | em | r <;>
        simp only [evaluate_answer_with_ai_real, default_result, Bool.not_true,
          if_false, Bool.false_eq_true]
      case timeout => constructor <;> linarith
      case exception => constructor <;> linarith
      case httpError => constructor <;> linarith
      case parseFailure => constructor <;> linarith
      case parsed =>
        obtain ⟨ha0, ha1⟩ := argument_score_of_bounds r.criterios
        constructor <;> linarith

/-- C4: for all four combinations of submitted boolean and expected boolean
(and for every analyzer outcome and key configuration), the truth component
equals exactly 1.5 — half of the per-question maximum — when the submitted
boolean equals the expected boolean, and exactly zero otherwise. -/
theorem C4_truth_component (ub cb : Bool) (reason cd qt : String) (ci qi : Nat)
    (key : Bool) (o : AnalyzerOutcome) :
    (evaluate_answer_with_ai_real ub reason cb cd qt ci qi key o).2.truth_score
      = if ub = cb then 3/2 else 0 := by
  cases key <;> rcases o with _ | m | ⟨st, tx⟩ | em | r <;> cases ub <;> cases cb <;>
    simp [evaluate_answer_with_ai_real, default_result]

/-- C2 (amended): the per-question total always equals
`truth component + argument component`; no penalty is ever subtracted —
`detect_paste_copy_attempts` is not invoked by the scoring path, so penalty
signals leave the total untouched. -/
theorem C2_total_is_truth_plus_argument (ub : Bool) (reason : String) (cb : Bool)
    (cd qt : String) (ci qi : Nat) (key : Bool) (o : AnalyzerOutcome) :
    (evaluate_answer_with_ai_real ub reason cb cd qt ci qi key o).2.final_score
      = (evaluate_answer_with_ai_real ub reason cb cd qt ci qi key o).2.truth_score
        + (evaluate_answer_with_ai_real ub reason cb cd qt ci qi key o).2.argument_score ∧
    (evaluate_answer_with_ai_real ub reason cb cd qt ci qi key o).1
      = (evaluate_answer_with_ai_real ub reason cb cd qt ci qi key o).2.final_score := by
  cases key <;> rcases o with _ | m | ⟨st, tx⟩ | em | r <;>
    simp [evaluate_answer_with_ai_real, default_result]

/-- C2 counterexample: the justification "no obstante, por tanto" triggers a
penalty signal (a formal-connector cluster, copy indicator 1), yet the
per-question total is NOT strictly reduced relative to
truth + argument: the claimed strict reduction fails at this input. -/
theorem C2_counterexample :
    1 ≤ (detect_paste_copy_attempts "no obstante, por tanto").2 ∧
    ¬ ((evaluate_answer_with_ai_real false "no obstante, por tanto" true "" "" 1 0
          false .timeout).2.final_score
        < (evaluate_answer_with_ai_real false "no obstante, por tanto" true "" "" 1 0
            false .timeout).2.truth_score
          + (evaluate_answer_with_ai_real false "no obstante, por tanto" true "" "" 1 0
              false .timeout).2.argument_score) := by
  constructor
  · decide
  · simp [evaluate_answer_with_ai_real, default_result]

/-- C3 (amended): a submission with missing entries is not rejected — for
every form (complete or not), every API-key configuration and every analyzer
outcome, the aggregation grades all 10 catalog questions (missing booleans
default to `false`, missing justifications to the fixed placeholder) and
builds the full report; no validation error exists on this path. -/
theorem C3_incomplete_submission_still_graded (form : List (String × String))
    (key : Bool) (o : Nat → Nat → AnalyzerOutcome) :
    (submit_comprehensive_scoring form key o).evaluations.length = 10 ∧
    (submit_comprehensive_scoring form key o).cases.length = CASES.length := by
  exact ⟨rfl, rfl⟩

/-- C3 counterexample: the empty form — in which every (case, question) pair
of the catalog, in particular case 1 question 0, has no answer entry — is
nevertheless fully graded: all 10 questions receive evaluations and the
persisted grand total is 15 (5 matching default-false booleans at 1.5 truth
points each, plus 10 fallback argument scores of 0.75), contradicting the
claim that no score is computed and nothing is persisted. -/
theorem C3_counterexample :
    formGet? [] "case_1_a0" = none ∧
    (submit_comprehensive_scoring [] false (fun _ _ => .timeout)).evaluations.length = 10 ∧
    (submit_comprehensive_scoring [] false (fun _ _ => .timeout)).total_score = 15 := by
  refine ⟨rfl, rfl, ?_⟩
  simp [submit_comprehensive_scoring, scoreCase, scoreQuestion, CASES, formGet?,
    evaluate_answer_with_ai_real, default_result, List.enum, List.enumFrom] <;> norm_num

/-- C5: for every analyzer failure mode the evaluator returns the local
fallback score (truth + 0.75) together with a diagnostic note in the
feedback field, never an exception (the embedding is a total function whose
failure branches are exactly the except-arms of the source); with absent
credentials it short-circuits: the external call is not attempted and the
result is the default record, independent of any outcome. -/
theorem C5_failure_fallback (ub cb : Bool) (reason cd qt : String) (ci qi : Nat) :
    (∀ o : AnalyzerOutcome,
        evaluate_answer_with_ai_real ub reason cb cd qt ci qi false o
          = ((if ub == cb then (3/2 : ℚ) else 0) + 3/4,
             default_result (if ub == cb then (3/2 : ℚ) else 0)) ∧
        attemptsAnalyzerCall false reason = false) ∧
    ((evaluate_answer_with_ai_real ub reason cb cd qt ci qi true .timeout).1
        = (if ub == cb then (3/2 : ℚ) else 0) + 3/4 ∧
      (evaluate_answer_with_ai_real ub reason cb cd qt ci qi true .timeout).2.feedback_general
        = "Timeout en evaluación con IA. Intente nuevamente.") ∧
    (∀ st : Nat, ∀ tx : String,
        (evaluate_answer_with_ai_real ub reason cb cd qt ci qi true (.httpError st tx)).1
          = (if ub == cb then (3/2 : ℚ) else 0) + 3/4 ∧
        (evaluate_answer_with_ai_real ub reason cb cd qt ci qi true (.httpError st tx)).2.feedback_general
          = "Error de API: " ++ ("Claude API error " ++ toString st ++ ": " ++ strTake tx 200)) ∧
    (∀ em : String,
        (evaluate_answer_with_ai_real ub reason cb cd qt ci qi true (.parseFailure em)).1
          = (if ub == cb then (3/2 : ℚ) else 0) + 3/4 ∧
        (evaluate_answer_with_ai_real ub reason cb cd qt ci qi true (.parseFailure em)).2.feedback_general
          = "Error procesando respuesta de IA: " ++ strTake em 200) ∧
    (∀ m : String,
        (evaluate_answer_with_ai_real ub reason cb cd qt ci qi true (.exception m)).1
          = (if ub == cb then (3/2 : ℚ) else 0) + 3/4 ∧
        (evaluate_answer_with_ai_real ub reason cb cd qt ci qi true (.exception m)).2.feedback_general
          = "Error inesperado: " ++ strTake m 200) := by
  refine ⟨fun o => ⟨?_, rfl⟩, ⟨?_, rfl⟩, fun st tx => ⟨?_, rfl⟩, fun em => ⟨?_, rfl⟩,
    fun m => ⟨?_, rfl⟩⟩ <;>
    simp [evaluate_answer_with_ai_real, default_result]

/-- C6 (amended): a parseable analyzer response with out-of-range sub-scores
is NOT treated as a failure: each sub-score is clamped into `[1, 5]`
(non-numeric values are replaced by 3), the argument component is derived
from the clamped values, and the feedback comes from the response rather
than from a fallback diagnostic. -/
theorem C6_out_of_range_clamped (ub cb : Bool) (reason cd qt : String)
    (ci qi : Nat) (r : AiResult) :
    (evaluate_answer_with_ai_real ub reason cb cd qt ci qi true (.parsed r)).2.argument_score
      = argument_score_of r.criterios ∧
    (∀ q : ℚ, validateCriterion (some (.num q)) = max 1 (min 5 (ratTrunc q))) ∧
    (∀ n : String, 1 ≤ validateCriterion (lookupCriterio r.criterios n) ∧
        validateCriterion (lookupCriterio r.criterios n) ≤ 5) ∧
    (evaluate_answer_with_ai_real ub reason cb cd qt ci qi true (.parsed r)).2.feedback_general
      = strTake (r.feedback_general.getD "Sin feedback general") 2000 := by
  refine ⟨?_, fun q => rfl, fun n => validateCriterion_mem_range _, ?_⟩ <;>
    simp [evaluate_answer_with_ai_real]

/-- C6 counterexample: a parseable response whose single given sub-score is
10 (outside 1-5) is not abandoned: the argument component becomes 29/30
(from the clamped value 5 averaged with eight defaults of 3), not the local
fallback 0.75, refuting the claim that such responses trigger the fallback. -/
theorem C6_counterexample :
    (evaluate_answer_with_ai_real true "x" true "" "" 1 0 true
        (.parsed { criterios := [("opinion_fundada", JsonVal.num 10)],
                   feedback_general := none, feedback_fortalezas := none,
                   feedback_mejoras := none, nivel_detectado := none })).2.argument_score
      = 29/30 ∧
    ¬ ((evaluate_answer_with_ai_real true "x" true "" "" 1 0 true
        (.parsed { criterios := [("opinion_fundada", JsonVal.num 10)],
                   feedback_general := none, feedback_fortalezas := none,
                   feedback_mejoras := none, nivel_detectado := none })).2.argument_score
      = 3/4) := by
  have h : (evaluate_answer_with_ai_real true "x" true "" "" 1 0 true
      (.parsed { criterios := [("opinion_fundada", JsonVal.num 10)],
                 feedback_general := none, feedback_fortalezas := none,
                 feedback_mejoras := none, nivel_detectado := none })).2.argument_score
      = 29/30 := by
    simp [evaluate_answer_with_ai_real, argument_score_of, promedio, validated_criterios,
      criterionNames, lookupCriterio, validateCriterion, ratTrunc] <;> norm_num
  rw [h]
  norm_num

/-- C7 (amended): justification length never causes a short-circuit: the
external call is attempted exactly when the API key is present — for every
justification, including the empty one — and the evaluator result does not
depend on the justification text at all; no minimal length-based fallback
score exists. -/
theorem C7_no_length_shortcircuit (ub cb : Bool) (r1 r2 cd qt : String)
    (ci qi : Nat) (key : Bool) (o : AnalyzerOutcome) :
    evaluate_answer_with_ai_real ub r1 cb cd qt ci qi key o
      = evaluate_answer_with_ai_real ub r2 cb cd qt ci qi key o ∧
    attemptsAnalyzerCall key r1 = key := by
  exact ⟨rfl, rfl⟩

/-- C7 counterexample: for the empty justification (below any minimum usable
threshold) the evaluator still attempts the external call when the key is
present, and a successful analysis yields the full argument score 1.5 from
the analyzer result — not a minimal fallback — refuting the claimed
skip-and-minimal-score behavior. -/
theorem C7_counterexample :
    attemptsAnalyzerCall true "" = true ∧
    (evaluate_answer_with_ai_real true "" true "" "" 1 0 true
        (.parsed { criterios := criterionNames.map (fun n => (n, JsonVal.num 5)),
                   feedback_general := none, feedback_fortalezas := none,
                   feedback_mejoras := none, nivel_detectado := none })).2.argument_score
      = 3/2 := by
  refine ⟨rfl, ?_⟩
  simp [evaluate_answer_with_ai_real, argument_score_of, promedio, validated_criterios,
    criterionNames, lookupCriterio, validateCriterion, ratTrunc] <;> norm_num

/-- C8 (amended): the penalty detector computes no degenerate-answer flag:
on each phrase of the fixed low-effort set ("si", "no", "no se") its output
is `(0, 0)` — zero paste indicators and zero copy indicators, the same
silent output as any short substantive text with none of the paste/copy
markers. -/
theorem C8_no_degenerate_flag :
    detect_paste_copy_attempts "si" = (0, 0) ∧
    detect_paste_copy_attempts "no" = (0, 0) ∧
    detect_paste_copy_attempts "no se" = (0, 0) := by
  refine ⟨?_, ?_, ?_⟩ <;> decide

/-- C8 counterexample: "si" belongs to the fixed low-effort phrase set
(after trimming and lowercasing), yet the detector — the only penalty
heuristic in the source — emits no signal whatsoever for it: there is no
degenerate-answer flagging, refuting the claimed exact-match behavior. -/
theorem C8_counterexample :
    specLowEffortPhrases.contains (strToLower (strTrim "si")) = true ∧
    detect_paste_copy_attempts "si" = (0, 0) := by
  exact ⟨by decide, by decide⟩

/-- C9: on analyzer success the argument component equals the mean of the
nine validated criterion scores divided by 5 and multiplied by the maximum
argument points 1.5; it always lies in `[0.3, 1.5]`, and the returned final
score equals truth component plus argument component. -/
theorem C9_argument_from_mean (ub cb : Bool) (reason cd qt : String)
    (ci qi : Nat) (r : AiResult) :
    (evaluate_answer_with_ai_real ub reason cb cd qt ci qi true (.parsed r)).2.argument_score
      = ((((validated_criterios r.criterios).sum : ℤ) : ℚ) / 9 / 5) * (3/2) ∧
    3/10 ≤ (evaluate_answer_with_ai_real ub reason cb cd qt ci qi true (.parsed r)).2.argument_score ∧
    (evaluate_answer_with_ai_real ub reason cb cd qt ci qi true (.parsed r)).2.argument_score ≤ 3/2 ∧
    (evaluate_answer_with_ai_real ub reason cb cd qt ci qi true (.parsed r)).1
      = (evaluate_answer_with_ai_real ub reason cb cd qt ci qi true (.parsed r)).2.truth_score
        + (evaluate_answer_with_ai_real ub reason cb cd qt ci qi true (.parsed r)).2.argument_score := by
  have ha : (evaluate_answer_with_ai_real ub reason cb cd qt ci qi true (.parsed r)).2.argument_score
      = argument_score_of r.criterios := by
    simp [evaluate_answer_with_ai_real]
  have htr : (evaluate_answer_with_ai_real ub reason cb cd qt ci qi true (.parsed r)).2.truth_score
      = (if ub == cb then (3/2 : ℚ) else 0) := by
    simp [evaluate_answer_with_ai_real]
  have hfst : (evaluate_answer_with_ai_real ub reason cb cd qt ci qi true (.parsed r)).1
      = (if ub == cb then (3/2 : ℚ) else 0) + argument_score_of r.criterios := by
    simp [evaluate_answer_with_ai_real]
  have hlen : (((validated_criterios r.criterios).length : Nat) : ℚ) = 9 := by
    simp [validated_criterios, criterionNames]
  obtain ⟨hlo, hhi⟩ := argument_score_of_bounds r.criterios
  refine ⟨?_, ?_, ?_, ?_⟩
  · rw [ha]
    simp only [argument_score_of, promedio, hlen]
  · rw [ha]; exact hlo
  · rw [ha]; exact hhi
  · rw [hfst, htr, ha]

/-- C10: for every completed submission — whatever the form contents, key
configuration and analyzer outcomes — the persisted report carries
`paste_attempts = 0`, `copy_attempts = 0` and `total_penalties = 0`: the
scoring path never invokes `detect_paste_copy_attempts`, so no penalty
counter ever reaches the stored report or any score. -/
theorem C10_penalty_counters_zero (form : List (String × String))
    (key : Bool) (o : Nat → Nat → AnalyzerOutcome) :
    (submit_comprehensive_scoring form key o).paste_attempts = 0 ∧
    (submit_comprehensive_scoring form key o).copy_attempts = 0 ∧
    (submit_comprehensive_scoring form key o).total_penalties = 0 := by
  exact ⟨rfl, rfl, rfl⟩

end NFTExam
